/-
Verification of the tradeict-bot core against its specification.

Shallow embedding of the Python sources:
  - src/screener_engine/analyzer.py      (get_arbitrage_opportunities)
  - src/market_data_service/exchange.py  (fetch_all_market_data cache,
                                          place_market_order, close_position)
  - src/trade_engine/executor.py         (TradeExecutor)

Modelling conventions:
  - Python floats are modelled as rationals (no NaN or rounding concerns
    arise in the verified paths; float("inf") from a non-positive leverage
    is modelled by the explicit leverage-non-positive branch it feeds).
  - Remote-call outcomes (CCXT responses, exceptions) are inputs: each
    operation takes an environment record holding the outcome of every
    remote call it may issue, and returns its result together with the
    ordered list of side effects (venue calls, ledger inserts) it performed.
  - Numeric interpolation inside log/message strings is elided where no
    claim depends on it; static message prefixes are kept verbatim.
-/
import Mathlib

/-- Python abs on rationals, kept executable. -/
def ratAbs (q : ℚ) : ℚ := if q < 0 then -q else q

lemma ratAbs_eq_abs (q : ℚ) : ratAbs q = |q| := by
  unfold ratAbs
  rcases lt_or_ge q 0 with h | h
  · simp [h, abs_of_neg h]
  · simp [not_lt.mpr h, abs_of_nonneg h]

/-- Python str.lower, charwise (kernel-reducible, unlike String.toLower). -/
def pyLower (s : String) : String := String.mk (s.data.map Char.toLower)

/-- Occurrence test for Python `needle in hay` on char lists. -/
def listContainsSub (needle : List Char) : List Char → Bool
  | [] => needle.isEmpty
  | c :: t => needle.isPrefixOf (c :: t) || listContainsSub needle t

/-- Python `needle in hay` for strings. -/
def strContainsSub (hay needle : String) : Bool := listContainsSub needle.data hay.data

/-- Python str(x) for an optional string, as used by dict.get without default. -/
def pyStrOpt : Option String → String
  | some s => s
  | none => "None"

/-- Python `a or b` on optional strings: empty string is falsy. -/
def pyOr (a b : Option String) : Option String :=
  match a with
  | some s => if s = "" then b else some s
  | none => b

/-- The two trading venues the system talks to. -/
inductive Venue where
  | kucoin
  | bybit
deriving DecidableEq, Repr

/-- One normalized instrument row produced by `_row` in exchange.py:
symbol, funding rate, funding interval in hours, next funding time (ISO string). -/
structure Row where
  symbol : String
  funding_rate : Option ℚ
  funding_interval : Option ℤ
  next_funding_time : Option String
deriving DecidableEq, Repr

/-- One per-venue section of the market-data summary built by fetch_all_market_data. -/
structure VenueSection where
  symbols_count : ℕ
  symbols : List Row
  error : Option String
deriving DecidableEq, Repr

/-- The full market snapshot: one section per venue. -/
structure Summary where
  kucoin : VenueSection
  bybit : VenueSection
deriving DecidableEq, Repr

/-- A Trade Record as appended by database.insert_trade. -/
structure TradeRecord where
  token_group_id : String
  quantity : ℚ
  leverage : ℤ
  kucoin_direction : String
  bybit_direction : String
  kucoin_entry_price : Option ℚ
  bybit_entry_price : Option ℚ
  status : String
deriving DecidableEq, Repr

/-- Observable side effects of the embedded operations, in program order.
fetchMarketData marks the call into fetch_all_market_data (cache-mediated);
fetchMarkPrices and fetchBalance always reach the venues; fetchVenue is one
venue bulk fetch during a cache refresh; placeOrder is one place_market_order
call; closeAttempt marks a close_position invocation and venueCloseOrder the
reduce-only market order it sends to the venue; insertTrade is a ledger append. -/
inductive Ev where
  | fetchMarketData
  | fetchMarkPrices (symbol : String)
  | fetchBalance (venue : Venue)
  | fetchVenue (venue : Venue)
  | placeOrder (venue : Venue) (symbol side : String) (qty : ℚ) (leverage : ℤ)
  | closeAttempt (venue : Venue) (symbol side : String) (qty : ℚ)
  | venueCloseOrder (venue : Venue) (symbol side : String) (qty : ℚ) (reduceOnly : Bool)
  | insertTrade (record : TradeRecord)
deriving DecidableEq, Repr

def Ev.isInsert : Ev → Bool
  | .insertTrade _ => true
  | _ => false

def Ev.isPlace : Ev → Bool
  | .placeOrder _ _ _ _ _ => true
  | _ => false

def Ev.isBybitPlace : Ev → Bool
  | .placeOrder Venue.bybit _ _ _ _ => true
  | _ => false

def Ev.isKucoinPlace : Ev → Bool
  | .placeOrder Venue.kucoin _ _ _ _ => true
  | _ => false

def Ev.isCloseAttempt : Ev → Bool
  | .closeAttempt _ _ _ _ => true
  | _ => false

def Ev.isVenueClose : Ev → Bool
  | .venueCloseOrder _ _ _ _ _ => true
  | _ => false

def Ev.isMarkPrice : Ev → Bool
  | .fetchMarkPrices _ => true
  | _ => false

/- ## Opportunity Matcher (screener_engine/analyzer.py) -/

/-- Python dict comprehension by symbol: a later row with the same symbol wins. -/
def dictBy (rows : List Row) (s : String) : Option Row :=
  rows.reverse.find? (fun r => r.symbol == s)

/-- The set of symbols present on both venues, each exactly once
(the Python source iterates sorted(set intersection); iteration order is
irrelevant to every stated property, so first-occurrence order is used). -/
def commonSymbols (ks bs : List Row) : List String :=
  ((ks.map Row.symbol).eraseDups).filter (fun s => (bs.map Row.symbol).contains s)

/-- One arbitrage opportunity as emitted by get_arbitrage_opportunities. -/
structure Opportunity where
  symbol : String
  kucoin_rate : ℚ
  bybit_rate : ℚ
  kucoin_funding_interval : ℤ
  bybit_funding_interval : ℤ
  gross_spread : ℚ
  recommended_action : String
  next_funding_time : Option String
deriving DecidableEq, Repr

/-- The per-symbol body of the matching loop in get_arbitrage_opportunities:
skip on a missing rate, a missing interval, or mismatched intervals;
otherwise emit gross spread, direction recommendation and funding time. -/
def matchSymbol (kl bl : List Row) (s : String) : Option Opportunity :=
  match dictBy kl s, dictBy bl s with
  | some krow, some brow =>
    match krow.funding_rate, brow.funding_rate with
    | some kr, some br =>
      match krow.funding_interval, brow.funding_interval with
      | some ki, some bi =>
        if ki = bi then
          some { symbol := s
                 kucoin_rate := kr
                 bybit_rate := br
                 kucoin_funding_interval := ki
                 bybit_funding_interval := bi
                 gross_spread := ratAbs (kr - br)
                 recommended_action :=
                   if br < kr then "KuCoin: Short / Bybit: Long"
                   else "KuCoin: Long / Bybit: Short"
                 next_funding_time := pyOr brow.next_funding_time krow.next_funding_time }
        else none
      | _, _ => none
    | _, _ => none
  | _, _ => none

/-- get_arbitrage_opportunities from analyzer.py, over a given market summary. -/
def get_arbitrage_opportunities (data : Summary) : List Opportunity :=
  (commonSymbols data.kucoin.symbols data.bybit.symbols).filterMap
    (matchSymbol data.kucoin.symbols data.bybit.symbols)

/- ## Market Snapshot Cache (market_data_service/exchange.py) -/

def MARKET_DATA_CACHE_TTL_SECONDS : ℚ := 60

/-- The module-level cache cell: stored summary (if any) and its capture time. -/
structure CacheState where
  cache : Option Summary
  ts : ℚ
deriving DecidableEq, Repr

/-- The summary built by one refresh: a failing venue fetch yields zero symbols
and its error string, a succeeding one yields its rows and a null error. -/
def buildSummary (k b : Except String (List Row)) : Summary :=
  { kucoin :=
      match k with
      | .ok rows => { symbols_count := rows.length, symbols := rows, error := none }
      | .error e => { symbols_count := 0, symbols := [], error := some e }
    bybit :=
      match b with
      | .ok rows => { symbols_count := rows.length, symbols := rows, error := none }
      | .error e => { symbols_count := 0, symbols := [], error := some e } }

/-- fetch_all_market_data: serve the cached summary while its age is under the
TTL, otherwise refresh from both venues and replace the stored snapshot.
`now` is the monotonic clock reading, `k`/`b` the venue fetch outcomes a
refresh would observe. Returns (summary, new cache state, venue calls issued). -/
def fetch_all_market_data (now : ℚ) (st : CacheState)
    (k b : Except String (List Row)) : Summary × CacheState × List Ev :=
  match st.cache with
  | some c =>
    if now - st.ts < MARKET_DATA_CACHE_TTL_SECONDS then (c, st, [])
    else
      (buildSummary k b, { cache := some (buildSummary k b), ts := now },
       [Ev.fetchVenue Venue.kucoin, Ev.fetchVenue Venue.bybit])
  | none =>
    (buildSummary k b, { cache := some (buildSummary k b), ts := now },
     [Ev.fetchVenue Venue.kucoin, Ev.fetchVenue Venue.bybit])

/- ## Venue order placement (place_market_order, KuCoin branch) -/

/-- A raised CCXT/HTTP error: optional venue error code plus message. -/
structure KucoinHttpError where
  code : Option String
  msg : String
deriving DecidableEq, Repr

/-- A raw KuCoin order response, reduced to the extracted order id. -/
structure KucoinOrderResponse where
  orderId : Option String
deriving DecidableEq, Repr

/-- The stale-connection test in place_market_order: code 900001, or the
lowered message containing 900001, or containing both "trading pair" and
"does not exist" (the Python and binds tighter than the or chain). -/
def isTransient900001 (e : KucoinHttpError) : Bool :=
  let err_str := pyLower e.msg
  let code_str := pyStrOpt e.code
  code_str == "900001" || strContainsSub err_str "900001" ||
    (strContainsSub err_str "trading pair" && strContainsSub err_str "does not exist")

/-- Remote-call outcomes observed by one place_market_order("kucoin", ...) call:
whether API keys are configured, whether the gatekeeper finds an active
futures market for the symbol, and the outcome of the raw order request on
the main connection and (if reached) on a fresh connection. -/
structure KucoinOrderEnv where
  hasApiKey : Bool
  foundMarket : Bool
  mainOutcome : Except KucoinHttpError KucoinOrderResponse
  freshOutcome : Except KucoinHttpError KucoinOrderResponse
deriving Repr

/-- Result dictionary of place_market_order. -/
structure OrderResult where
  success : Bool
  error : Option String
  order_id : Option String
deriving DecidableEq, Repr

/-- place_market_order for KuCoin: gatekeeper checks, then the two-attempt
execution loop — the raw order on the main connection, re-attempted exactly
once on a fresh connection when (and only when) the failure matches the
900001 stale-connection class; any other error is terminal for the call.
The second component counts order requests actually sent to the venue. -/
def place_market_order_kucoin (env : KucoinOrderEnv) (normalized_symbol : String)
    (amount_base : ℚ) : OrderResult × ℕ :=
  if env.hasApiKey = false then
    ({ success := false, error := some "API keys not configured", order_id := none }, 0)
  else if amount_base ≤ 0 then
    ({ success := false, error := some "Amount must be positive", order_id := none }, 0)
  else if env.foundMarket = false then
    ({ success := false,
       error := some (normalized_symbol ++ " is not in the active KuCoin Futures list. Trade skipped."),
       order_id := none }, 0)
  else
    match env.mainOutcome with
    | .ok r => ({ success := true, error := none, order_id := r.orderId }, 1)
    | .error e =>
      if isTransient900001 e then
        match env.freshOutcome with
        | .ok r => ({ success := true, error := none, order_id := r.orderId }, 2)
        | .error e2 => ({ success := false, error := some e2.msg, order_id := none }, 2)
      else ({ success := false, error := some e.msg, order_id := none }, 1)

/- ## Position close (close_position) -/

/-- Remote-call outcomes observed by one close_position call: API keys
configured, symbol resolvable on the venue, KuCoin contracts/active gate,
and the outcome of the reduce-only market order (none = success,
some e = the exception message it raised). -/
structure CloseEnv where
  hasApiKey : Bool
  symbolFound : Bool
  validKucoinId : Bool
  orderOutcome : Option String
deriving DecidableEq, Repr

/-- Result dictionary of close_position. -/
structure CloseResult where
  success : Bool
  error : Option String
deriving DecidableEq, Repr

/-- Python close side: the opposite of the side that was opened. -/
def pyCloseSide (side : String) : String :=
  if pyLower side = "buy" then "sell" else "buy"

/-- close_position: guard checks in source order, then a reduce-only market
order on the opposite side with the same amount. The event list starts with
the closeAttempt marker for the invocation itself; the venueCloseOrder event
appears exactly when the guards pass and the venue order is issued. -/
def close_position (cenv : CloseEnv) (venue : Venue) (symbol side : String)
    (amount : ℚ) : CloseResult × List Ev :=
  let att := Ev.closeAttempt venue symbol side amount
  if cenv.hasApiKey = false then
    ({ success := false, error := some "API keys not configured" }, [att])
  else if cenv.symbolFound = false then
    ({ success := false, error := some ("Symbol " ++ symbol ++ " not found") }, [att])
  else if venue = Venue.kucoin ∧ cenv.validKucoinId = false then
    ({ success := false,
       error := some ("Invalid futures symbol (" ++ symbol ++ "): not in KuCoin contracts/active") },
     [att])
  else
    match cenv.orderOutcome with
    | none =>
      ({ success := true, error := none },
       [att, Ev.venueCloseOrder venue symbol (pyCloseSide side) amount true])
    | some e =>
      ({ success := false, error := some e },
       [att, Ev.venueCloseOrder venue symbol (pyCloseSide side) amount true])

/- ## Trade Executor (trade_engine/executor.py) -/

def MAX_TOKENS : ℚ := 5
def MAX_NOTIONAL_USDT : ℚ := 20

/-- Result dictionary of get_wallet_balance. -/
structure BalanceResult where
  total_wallet_balance : ℚ
  available_balance : ℚ
  unrealized_pnl : ℚ
  error : Option String
deriving DecidableEq, Repr

/-- Remote-call outcomes observed by one execute_dual_trade call: the market
summary returned by fetch_all_market_data, the two mark prices returned by
get_mark_prices_for_symbol, the two wallet balances, the results of the two
possible place_market_order calls, and the close_position environment. -/
structure ExecEnv where
  snapshot : Summary
  kucoin_price : Option ℚ
  bybit_price : Option ℚ
  kucoin_balance : BalanceResult
  bybit_balance : BalanceResult
  kucoin_order : OrderResult
  bybit_order : OrderResult
  closeEnv : CloseEnv
deriving Repr

/-- Funding-rate lookup in _get_directions_and_prices: dict get by symbol,
then the funding_rate field (None when the symbol is absent). -/
def kucoinRateOf (data : Summary) (symbol : String) : Option ℚ :=
  (dictBy data.kucoin.symbols symbol).bind Row.funding_rate

def bybitRateOf (data : Summary) (symbol : String) : Option ℚ :=
  (dictBy data.bybit.symbols symbol).bind Row.funding_rate

/-- Direction assignment of _get_directions_and_prices: when both rates are
known and the KuCoin rate is strictly higher, KuCoin is Short and Bybit Long;
in every other case (lower, equal, or either rate missing) KuCoin is Long and
Bybit Short. -/
def directionPair (kr br : Option ℚ) : String × String :=
  match kr, br with
  | some a, some b => if b < a then ("Short", "Long") else ("Long", "Short")
  | _, _ => ("Long", "Short")

/-- _get_directions_and_prices: read rates from the cached market data,
resolve directions, fetch mark prices. Both the fetch_all_market_data call
and the get_mark_prices_for_symbol call are recorded as events. -/
def _get_directions_and_prices (env : ExecEnv) (symbol : String) :
    (String × String × Option ℚ × Option ℚ) × List Ev :=
  let d := directionPair (kucoinRateOf env.snapshot symbol) (bybitRateOf env.snapshot symbol)
  ((d.1, d.2, env.kucoin_price, env.bybit_price),
   [Ev.fetchMarketData, Ev.fetchMarkPrices symbol])

/-- _validate_amount_limit: positive quantity, token cap, and notional cap
against the higher of the two mark prices (a missing price counts as 0). -/
def _validate_amount_limit (quantity : ℚ) (kucoin_price bybit_price : Option ℚ) :
    Bool × String :=
  if quantity ≤ 0 then (false, "Token quantity must be positive")
  else if MAX_TOKENS < quantity then (false, "Token quantity exceeds limit (5 tokens)")
  else
    let max_price := max (kucoin_price.getD 0) (bybit_price.getD 0)
    if 0 < max_price ∧ MAX_NOTIONAL_USDT < quantity * max_price then
      (false, "Notional exceeds limit (20 USDT)")
    else (true, "")

/-- _validate_balance: margin per venue is quantity times that venue mark
price over leverage (infinite when leverage is non-positive, which always
exceeds the available balance); both wallet balances are fetched after the
price guard, and a venue error string fails the check. -/
def _validate_balance (kb bb : BalanceResult) (quantity : ℚ) (leverage : ℤ)
    (kucoin_price bybit_price : Option ℚ) : (Bool × String) × List Ev :=
  let pk := kucoin_price.getD 0
  let pb := bybit_price.getD 0
  if pk ≤ 0 ∨ pb ≤ 0 then ((false, "Could not get mark price"), [])
  else
    let evs : List Ev := [Ev.fetchBalance Venue.kucoin, Ev.fetchBalance Venue.bybit]
    let verdict : Bool × String :=
      match kb.error with
      | some e => (false, "KuCoin: " ++ e)
      | none =>
        match bb.error with
        | some e => (false, "Bybit: " ++ e)
        | none =>
          if leverage ≤ 0 then
            (false, "Insufficient balance: margin exceeds KuCoin available")
          else
            let margin_k := quantity * pk / (leverage : ℚ)
            let margin_b := quantity * pb / (leverage : ℚ)
            if kb.available_balance < margin_k then
              (false, "Insufficient balance: margin exceeds KuCoin available")
            else if bb.available_balance < margin_b then
              (false, "Insufficient balance: margin exceeds Bybit available")
            else (true, "")
    (verdict, evs)

/-- Outcome dictionary of execute_dual_trade. -/
structure ExecResult where
  success : Bool
  status : Option String
  message : String
  logs : List String
deriving DecidableEq, Repr

/-- execute_dual_trade: resolve directions and prices, guard on positive mark
prices, validate amount and balance, place the KuCoin leg, place the Bybit
leg (or simulate its failure), and on a leg-B failure close the KuCoin leg
and record FAILED_ROLLBACK; on success record OPEN. Returns the response
dictionary and the ordered side effects. -/
def execute_dual_trade (env : ExecEnv) (symbol : String) (quantity : ℚ)
    (leverage : ℤ) (simulate_failure : Bool) : ExecResult × List Ev :=
  let gd := _get_directions_and_prices env symbol
  let kucoin_direction := gd.1.1
  let bybit_direction := gd.1.2.1
  let kucoin_price := gd.1.2.2.1
  let bybit_price := gd.1.2.2.2
  let ev0 := gd.2
  if kucoin_price.getD 0 ≤ 0 ∨ bybit_price.getD 0 ≤ 0 then
    ({ success := false, status := none,
       message := "Could not get mark price for symbol", logs := [] }, ev0)
  else
    let va := _validate_amount_limit quantity kucoin_price bybit_price
    if va.1 then
      let vb := _validate_balance env.kucoin_balance env.bybit_balance quantity
        leverage kucoin_price bybit_price
      if vb.1.1 then
        let kucoin_side := if kucoin_direction = "Short" then "sell" else "buy"
        let bybit_side := if bybit_direction = "Short" then "sell" else "buy"
        let evA := ev0 ++ vb.2 ++ [Ev.placeOrder Venue.kucoin symbol kucoin_side quantity leverage]
        let res_a := env.kucoin_order
        if res_a.success then
          let logs1 := ["KuCoin place order OK"]
          let stepB : Bool × List String × List Ev :=
            if simulate_failure then
              (false, logs1 ++ ["Bybit place order FAILED (simulated)"], evA)
            else
              let evB := evA ++ [Ev.placeOrder Venue.bybit symbol bybit_side quantity leverage]
              if env.bybit_order.success then
                (true, logs1 ++ ["Bybit place order OK"], evB)
              else
                (false, logs1 ++
                  ["Bybit place order FAILED: " ++ env.bybit_order.error.getD "Unknown"], evB)
          if stepB.1 then
            let record2 : TradeRecord :=
              { token_group_id := symbol, quantity := quantity, leverage := leverage,
                kucoin_direction := kucoin_direction, bybit_direction := bybit_direction,
                kucoin_entry_price := kucoin_price, bybit_entry_price := bybit_price,
                status := "OPEN" }
            ({ success := true, status := some "OPEN", message := "Trade Successful",
               logs := stepB.2.1 ++ ["Trade logged as OPEN"] },
             stepB.2.2 ++ [Ev.insertTrade record2])
          else
            let cp := close_position env.closeEnv Venue.kucoin symbol kucoin_side quantity
            let logs2 := stepB.2.1 ++
              (if cp.1.success then ["KuCoin rollback close position OK"]
               else ["KuCoin rollback close position FAILED: " ++ cp.1.error.getD "Unknown"])
            let record1 : TradeRecord :=
              { token_group_id := symbol, quantity := quantity, leverage := leverage,
                kucoin_direction := kucoin_direction, bybit_direction := bybit_direction,
                kucoin_entry_price := kucoin_price, bybit_entry_price := bybit_price,
                status := "FAILED_ROLLBACK" }
            ({ success := false, status := some "FAILED_ROLLBACK",
               message := "Trade Failed! First Order Rolled Back.", logs := logs2 },
             stepB.2.2 ++ cp.2 ++ [Ev.insertTrade record1])
        else
          ({ success := false, status := none,
             message := "KuCoin order failed: " ++ pyStrOpt res_a.error,
             logs := ["KuCoin place order FAILED: " ++ res_a.error.getD "Unknown"] }, evA)
      else
        ({ success := false, status := none, message := vb.1.2, logs := [vb.1.2] },
         ev0 ++ vb.2)
    else
      ({ success := false, status := none, message := va.2, logs := [va.2] }, ev0)

/- ## Helper lemmas -/

lemma directionPair_cases (kr br : Option ℚ) :
    directionPair kr br = ("Short", "Long") ∨ directionPair kr br = ("Long", "Short") := by
  unfold directionPair
  cases kr with
  | none => cases br <;> simp
  | some a =>
    cases br with
    | none => simp
    | some b =>
      by_cases h : b < a
      · left
        simp [h]
      · right
        simp [h]

lemma close_position_events (cenv : CloseEnv) (venue : Venue) (s sd : String) (q : ℚ) :
    (close_position cenv venue s sd q).2 = [Ev.closeAttempt venue s sd q] ∨
    (close_position cenv venue s sd q).2 =
      [Ev.closeAttempt venue s sd q, Ev.venueCloseOrder venue s (pyCloseSide sd) q true] := by
  unfold close_position
  by_cases h1 : cenv.hasApiKey = false
  · simp [h1]
  · by_cases h2 : cenv.symbolFound = false
    · simp [h1, h2]
    · by_cases h3 : venue = Venue.kucoin ∧ cenv.validKucoinId = false
      · simp [h1, h2, h3]
      · cases h4 : cenv.orderOutcome <;> simp [h1, h2, h3, h4]

lemma validate_balance_events (kb bb : BalanceResult) (q : ℚ) (lev : ℤ)
    (kp bp : Option ℚ) (h : ¬(kp.getD 0 ≤ 0 ∨ bp.getD 0 ≤ 0)) :
    (_validate_balance kb bb q lev kp bp).2 =
      [Ev.fetchBalance Venue.kucoin, Ev.fetchBalance Venue.bybit] := by
  unfold _validate_balance
  simp [h]

/-- Attempt count of the KuCoin placement, in closed form. -/
lemma place_market_order_kucoin_attempts (env : KucoinOrderEnv) (symbol : String)
    (amount : ℚ) :
    (place_market_order_kucoin env symbol amount).2 =
      if env.hasApiKey = false then 0
      else if amount ≤ 0 then 0
      else if env.foundMarket = false then 0
      else
        match env.mainOutcome with
        | .ok _ => 1
        | .error e => if isTransient900001 e then 2 else 1 := by
  unfold place_market_order_kucoin
  by_cases h1 : env.hasApiKey = false
  · simp [h1]
  · by_cases h2 : amount ≤ 0
    · simp [h1, h2]
    · by_cases h3 : env.foundMarket = false
      · simp [h1, h2, h3]
      · cases hm : env.mainOutcome with
        | ok r => simp [h1, h2, h3, hm]
        | error e =>
          by_cases ht : isTransient900001 e = true
          · cases hf : env.freshOutcome <;> simp [h1, h2, h3, hm, ht, hf]
          · simp only [Bool.not_eq_true] at ht
            simp [h1, h2, h3, hm, ht]

/- ## Claims C7, C8, C9 -/

/-- C7: fetch_all_market_data never raises (it is a total function of the
venue-fetch outcomes); when one venue's fetch fails, that venue's section of
the snapshot has zero instruments and its error field set to the captured
error string, while the other venue's section holds its rows with a null
error. Stated for a refreshing call (empty cache). -/
theorem C7_per_venue_failure_isolation (now : ℚ) (st : CacheState)
    (k b : Except String (List Row)) (hmiss : st.cache = none) :
    (∀ e rows, k = .error e → b = .ok rows →
      (fetch_all_market_data now st k b).1.kucoin =
        { symbols_count := 0, symbols := [], error := some e } ∧
      (fetch_all_market_data now st k b).1.bybit =
        { symbols_count := rows.length, symbols := rows, error := none }) ∧
    (∀ e rows, b = .error e → k = .ok rows →
      (fetch_all_market_data now st k b).1.kucoin =
        { symbols_count := rows.length, symbols := rows, error := none } ∧
      (fetch_all_market_data now st k b).1.bybit =
        { symbols_count := 0, symbols := [], error := some e }) := by
  constructor <;> rintro e rows h1 h2 <;> subst h1 <;> subst h2 <;>
    simp [fetch_all_market_data, buildSummary, hmiss]

/-- Concrete instantiation of C7: KuCoin fetch fails with "boom", Bybit
returns one row. -/
theorem C7_per_venue_failure_isolation_witness :
    (fetch_all_market_data 0 { cache := none, ts := 0 } (.error "boom")
      (.ok [{ symbol := "BTC/USDT", funding_rate := some (2/10000),
              funding_interval := some 8, next_funding_time := none }])).1.kucoin =
      { symbols_count := 0, symbols := [], error := some "boom" } ∧
    (fetch_all_market_data 0 { cache := none, ts := 0 } (.error "boom")
      (.ok [{ symbol := "BTC/USDT", funding_rate := some (2/10000),
              funding_interval := some 8, next_funding_time := none }])).1.bybit =
      { symbols_count := 1,
        symbols := [{ symbol := "BTC/USDT", funding_rate := some (2/10000),
                      funding_interval := some 8, next_funding_time := none }],
        error := none } :=
  (C7_per_venue_failure_isolation 0 { cache := none, ts := 0 } (.error "boom")
      (.ok [{ symbol := "BTC/USDT", funding_rate := some (2/10000),
              funding_interval := some 8, next_funding_time := none }]) rfl).1
    "boom" _ rfl rfl

/-- C8: a fetch_all_market_data call while the cached snapshot's age is below
the TTL returns the cached snapshot, issues zero venue calls and leaves the
cache cell unchanged; a call with no cache or with the TTL expired refreshes
from both venues and replaces the stored snapshot with the new one at the
current clock reading. -/
theorem C8_cache_ttl (now : ℚ) (st : CacheState) (k b : Except String (List Row)) :
    (∀ c, st.cache = some c → now - st.ts < MARKET_DATA_CACHE_TTL_SECONDS →
      fetch_all_market_data now st k b = (c, st, [])) ∧
    (st.cache = none ∨ MARKET_DATA_CACHE_TTL_SECONDS ≤ now - st.ts →
      fetch_all_market_data now st k b =
        (buildSummary k b, { cache := some (buildSummary k b), ts := now },
         [Ev.fetchVenue Venue.kucoin, Ev.fetchVenue Venue.bybit])) := by
  constructor
  · intro c hc hlt
    simp [fetch_all_market_data, hc, hlt]
  · rintro (hc | hge)
    · simp [fetch_all_market_data, hc]
    · cases hcc : st.cache with
      | none => simp [fetch_all_market_data, hcc]
      | some c => simp [fetch_all_market_data, hcc, not_lt.mpr hge]

/-- Concrete instantiation of C8: a call at time 1 against a snapshot cached
at time 0 is served from cache with no venue calls; a call at time 100
refreshes and replaces the snapshot. -/
theorem C8_cache_ttl_witness :
    fetch_all_market_data 1
      { cache := some { kucoin := { symbols_count := 0, symbols := [], error := none },
                        bybit := { symbols_count := 0, symbols := [], error := none } }, ts := 0 }
      (.ok []) (.ok []) =
      ({ kucoin := { symbols_count := 0, symbols := [], error := none },
         bybit := { symbols_count := 0, symbols := [], error := none } },
       { cache := some { kucoin := { symbols_count := 0, symbols := [], error := none },
                         bybit := { symbols_count := 0, symbols := [], error := none } }, ts := 0 },
       []) ∧
    fetch_all_market_data 100
      { cache := some { kucoin := { symbols_count := 0, symbols := [], error := none },
                        bybit := { symbols_count := 0, symbols := [], error := none } }, ts := 0 }
      (.ok []) (.ok []) =
      (buildSummary (.ok []) (.ok []),
       { cache := some (buildSummary (.ok []) (.ok [])), ts := 100 },
       [Ev.fetchVenue Venue.kucoin, Ev.fetchVenue Venue.bybit]) :=
  ⟨(C8_cache_ttl 1 _ (.ok []) (.ok [])).1 _ rfl
      (by norm_num [MARKET_DATA_CACHE_TTL_SECONDS]),
   (C8_cache_ttl 100 _ (.ok []) (.ok [])).2
      (Or.inr (by norm_num [MARKET_DATA_CACHE_TTL_SECONDS]))⟩

/-- C9: the KuCoin placement sends at most two order requests to the venue;
a second request happens only when the first failed with the 900001
stale-connection class; under the gatekeeper checks passing, a non-transient
first failure is terminal (exactly one request, failure result carrying that
error) and a transient first failure is retried exactly once on the fresh
connection. -/
theorem C9_bounded_retry (env : KucoinOrderEnv) (symbol : String) (amount : ℚ) :
    (place_market_order_kucoin env symbol amount).2 ≤ 2 ∧
    ((place_market_order_kucoin env symbol amount).2 = 2 →
      ∃ e, env.mainOutcome = .error e ∧ isTransient900001 e = true) ∧
    (∀ e, env.mainOutcome = .error e → isTransient900001 e = false →
      (place_market_order_kucoin env symbol amount).2 ≤ 1) ∧
    (env.hasApiKey = true → 0 < amount → env.foundMarket = true →
      (∀ e, env.mainOutcome = .error e → isTransient900001 e = false →
        (place_market_order_kucoin env symbol amount).2 = 1 ∧
        (place_market_order_kucoin env symbol amount).1.success = false ∧
        (place_market_order_kucoin env symbol amount).1.error = some e.msg) ∧
      (∀ e, env.mainOutcome = .error e → isTransient900001 e = true →
        (place_market_order_kucoin env symbol amount).2 = 2)) := by
  refine ⟨?_, ?_, ?_, ?_⟩
  · rw [place_market_order_kucoin_attempts]
    split
    · omega
    split
    · omega
    split
    · omega
    cases env.mainOutcome with
    | ok r =>
      dsimp only
      omega
    | error e =>
      dsimp only
      split <;> omega
  · rw [place_market_order_kucoin_attempts]
    split
    · intro h
      exact absurd h (by norm_num)
    split
    · intro h
      exact absurd h (by norm_num)
    split
    · intro h
      exact absurd h (by norm_num)
    cases hm : env.mainOutcome with
    | ok r =>
      intro h
      exact absurd h (by norm_num)
    | error e =>
      dsimp only
      by_cases ht : isTransient900001 e = true
      · intro _
        exact ⟨e, rfl, ht⟩
      · simp only [Bool.not_eq_true] at ht
        simp [ht]
  · intro e he ht
    rw [place_market_order_kucoin_attempts, he]
    split
    · omega
    split
    · omega
    split
    · omega
    dsimp only
    simp [ht]
  · intro hk1 ha fm1
    constructor
    · intro e he ht
      unfold place_market_order_kucoin
      rw [hk1, he]
      simp [not_le.mpr ha, fm1, ht]
    · intro e he ht
      unfold place_market_order_kucoin
      rw [hk1, he]
      cases env.freshOutcome <;> simp [not_le.mpr ha, fm1, ht]

/-- Concrete instantiation of C9: a non-transient failure (insufficient
balance) on the main connection is terminal after one request. -/
theorem C9_bounded_retry_witness :
    (place_market_order_kucoin
      { hasApiKey := true, foundMarket := true,
        mainOutcome := .error { code := some "300003", msg := "Balance insufficient" },
        freshOutcome := .ok { orderId := some "x" } } "BTC/USDT" 1).2 = 1 ∧
    (place_market_order_kucoin
      { hasApiKey := true, foundMarket := true,
        mainOutcome := .error { code := some "300003", msg := "Balance insufficient" },
        freshOutcome := .ok { orderId := some "x" } } "BTC/USDT" 1).1.success = false ∧
    (place_market_order_kucoin
      { hasApiKey := true, foundMarket := true,
        mainOutcome := .error { code := some "300003", msg := "Balance insufficient" },
        freshOutcome := .ok { orderId := some "x" } } "BTC/USDT" 1).1.error =
      some "Balance insufficient" :=
  ((C9_bounded_retry
      { hasApiKey := true, foundMarket := true,
        mainOutcome := .error { code := some "300003", msg := "Balance insufficient" },
        freshOutcome := .ok { orderId := some "x" } } "BTC/USDT" 1).2.2.2
    rfl (by norm_num) rfl).1
    { code := some "300003", msg := "Balance insufficient" } rfl (by decide)

/- ## Claims C5, C6 (Opportunity Matcher) -/

/-- Inversion of the per-symbol matching step: everything that is true of an
emitted opportunity. -/
lemma matchSymbol_some {kl bl : List Row} {s : String} {opp : Opportunity}
    (h : matchSymbol kl bl s = some opp) :
    opp.symbol = s ∧
    ∃ krow brow, dictBy kl s = some krow ∧ dictBy bl s = some brow ∧
      krow.funding_rate = some opp.kucoin_rate ∧
      brow.funding_rate = some opp.bybit_rate ∧
      krow.funding_interval = some opp.kucoin_funding_interval ∧
      brow.funding_interval = some opp.bybit_funding_interval ∧
      opp.kucoin_funding_interval = opp.bybit_funding_interval ∧
      opp.gross_spread = ratAbs (opp.kucoin_rate - opp.bybit_rate) ∧
      opp.recommended_action =
        (if opp.bybit_rate < opp.kucoin_rate then "KuCoin: Short / Bybit: Long"
         else "KuCoin: Long / Bybit: Short") ∧
      opp.next_funding_time = pyOr brow.next_funding_time krow.next_funding_time := by
  unfold matchSymbol at h
  cases hk : dictBy kl s with
  | none =>
    rw [hk] at h
    exact absurd h (by simp)
  | some krow =>
    cases hb : dictBy bl s with
    | none =>
      rw [hk, hb] at h
      exact absurd h (by simp)
    | some brow =>
      rw [hk, hb] at h
      dsimp only at h
      cases hkr : krow.funding_rate with
      | none =>
        rw [hkr] at h
        exact absurd h (by simp)
      | some kr =>
        cases hbr : brow.funding_rate with
        | none =>
          rw [hkr, hbr] at h
          exact absurd h (by simp)
        | some br =>
          rw [hkr, hbr] at h
          dsimp only at h
          cases hki : krow.funding_interval with
          | none =>
            rw [hki] at h
            exact absurd h (by simp)
          | some ki =>
            cases hbi : brow.funding_interval with
            | none =>
              rw [hki, hbi] at h
              exact absurd h (by simp)
            | some bi =>
              rw [hki, hbi] at h
              dsimp only at h
              by_cases hif : ki = bi
              · rw [if_pos hif] at h
                injection h with h
                subst h
                subst hif
                exact ⟨rfl, krow, brow, rfl, rfl, hkr, hbr, hki, hbi, rfl, rfl, rfl, rfl⟩
              · rw [if_neg hif] at h
                exact absurd h (by simp)

/-- C5: every opportunity the matcher returns is for a symbol present on both
venues with a funding rate on each venue and equal, non-null funding
intervals; any common symbol with a null rate, a null interval or two
differing intervals does not appear in the returned list. -/
theorem C5_interval_and_rate_filter (data : Summary) :
    (∀ opp ∈ get_arbitrage_opportunities data,
      ∃ krow brow,
        dictBy data.kucoin.symbols opp.symbol = some krow ∧
        dictBy data.bybit.symbols opp.symbol = some brow ∧
        krow.funding_rate = some opp.kucoin_rate ∧
        brow.funding_rate = some opp.bybit_rate ∧
        krow.funding_interval = some opp.kucoin_funding_interval ∧
        brow.funding_interval = some opp.bybit_funding_interval ∧
        opp.kucoin_funding_interval = opp.bybit_funding_interval) ∧
    (∀ s krow brow,
      dictBy data.kucoin.symbols s = some krow →
      dictBy data.bybit.symbols s = some brow →
      (krow.funding_rate = none ∨ brow.funding_rate = none ∨
       krow.funding_interval = none ∨ brow.funding_interval = none ∨
       krow.funding_interval ≠ brow.funding_interval) →
      ∀ opp ∈ get_arbitrage_opportunities data, opp.symbol ≠ s) := by
  constructor
  · intro opp hm
    unfold get_arbitrage_opportunities at hm
    rw [List.mem_filterMap] at hm
    obtain ⟨s, _, hms⟩ := hm
    obtain ⟨hsym, krow, brow, h1, h2, h3, h4, h5, h6, h7, _⟩ := matchSymbol_some hms
    rw [← hsym] at h1 h2
    exact ⟨krow, brow, h1, h2, h3, h4, h5, h6, h7⟩
  · intro s krow brow hk hb hbad opp hm heq
    unfold get_arbitrage_opportunities at hm
    rw [List.mem_filterMap] at hm
    obtain ⟨s', _, hms⟩ := hm
    obtain ⟨hsym, krow', brow', h1, h2, h3, h4, h5, h6, h7, _⟩ := matchSymbol_some hms
    have hss : s' = s := by rw [← hsym, heq]
    subst hss
    rw [hk] at h1
    rw [hb] at h2
    injection h1 with h1
    injection h2 with h2
    subst h1
    subst h2
    rcases hbad with hb1 | hb2 | hb3 | hb4 | hb5
    · rw [hb1] at h3
      exact absurd h3 (by simp)
    · rw [hb2] at h4
      exact absurd h4 (by simp)
    · rw [hb3] at h5
      exact absurd h5 (by simp)
    · rw [hb4] at h6
      exact absurd h6 (by simp)
    · rw [h5, h6, h7] at hb5
      exact hb5 rfl

/-- Market data for the concrete scenario of the spec: BTC/USDT with KuCoin
funding rate 0.0006 and Bybit funding rate 0.0002, both on an 8h interval. -/
def demoData : Summary :=
  { kucoin :=
      { symbols_count := 1,
        symbols := [{ symbol := "BTC/USDT", funding_rate := some (6/10000),
                      funding_interval := some 8, next_funding_time := none }],
        error := none }
    bybit :=
      { symbols_count := 1,
        symbols := [{ symbol := "BTC/USDT", funding_rate := some (2/10000),
                      funding_interval := some 8,
                      next_funding_time := some "2025-01-01T00:00:00+00:00" }],
        error := none } }

/-- The single opportunity the matcher emits on `demoData`. -/
def demoOpp : Opportunity :=
  { symbol := "BTC/USDT", kucoin_rate := 6/10000, bybit_rate := 2/10000,
    kucoin_funding_interval := 8, bybit_funding_interval := 8,
    gross_spread := 4/10000, recommended_action := "KuCoin: Short / Bybit: Long",
    next_funding_time := some "2025-01-01T00:00:00+00:00" }

lemma demo_opps_eval : get_arbitrage_opportunities demoData = [demoOpp] := by
  have h1 : (2:ℚ)/10000 < 6/10000 := by norm_num
  have h2 : ¬ ((6:ℚ)/10000 - 2/10000 < 0) := by norm_num
  simp only [get_arbitrage_opportunities, demoData, demoOpp, commonSymbols, matchSymbol,
    dictBy, ratAbs, pyOr, List.map, List.eraseDups, List.filter, List.reverse,
    List.find?, List.filterMap]
  norm_num
  exact fun h => absurd h (by decide)

/-- Concrete instantiation of C5 on the demo snapshot: the emitted BTC/USDT
opportunity satisfies the both-venues, non-null-rate, equal-interval shape. -/
theorem C5_interval_and_rate_filter_witness :
    demoOpp ∈ get_arbitrage_opportunities demoData ∧
    (∃ krow brow,
      dictBy demoData.kucoin.symbols demoOpp.symbol = some krow ∧
      dictBy demoData.bybit.symbols demoOpp.symbol = some brow ∧
      krow.funding_rate = some demoOpp.kucoin_rate ∧
      brow.funding_rate = some demoOpp.bybit_rate ∧
      krow.funding_interval = some demoOpp.kucoin_funding_interval ∧
      brow.funding_interval = some demoOpp.bybit_funding_interval ∧
      demoOpp.kucoin_funding_interval = demoOpp.bybit_funding_interval) := by
  have hm : demoOpp ∈ get_arbitrage_opportunities demoData := by
    rw [demo_opps_eval]
    exact List.mem_singleton.mpr rfl
  exact ⟨hm, (C5_interval_and_rate_filter demoData).1 demoOpp hm⟩

/-- C6: for every emitted opportunity, gross_spread is the absolute funding
rate difference, the recommendation shorts the higher-rate venue and longs
the other, and next_funding_time prefers the Bybit value (falling back to
the KuCoin value when Bybit has none); and on the concrete scenario of the
spec (KuCoin 0.0006 vs Bybit 0.0002, both 8h) the matcher returns exactly
the 0.0004-spread KuCoin-Short/Bybit-Long opportunity. -/
theorem C6_spread_direction_and_funding_time (data : Summary) :
    (∀ opp ∈ get_arbitrage_opportunities data,
      opp.gross_spread = |opp.kucoin_rate - opp.bybit_rate| ∧
      (opp.bybit_rate < opp.kucoin_rate →
        opp.recommended_action = "KuCoin: Short / Bybit: Long") ∧
      (opp.kucoin_rate < opp.bybit_rate →
        opp.recommended_action = "KuCoin: Long / Bybit: Short") ∧
      (∃ krow brow,
        dictBy data.kucoin.symbols opp.symbol = some krow ∧
        dictBy data.bybit.symbols opp.symbol = some brow ∧
        (∀ t, brow.next_funding_time = some t → t ≠ "" →
          opp.next_funding_time = some t) ∧
        (brow.next_funding_time = none →
          opp.next_funding_time = krow.next_funding_time))) ∧
    get_arbitrage_opportunities demoData = [demoOpp] := by
  constructor
  · intro opp hm
    unfold get_arbitrage_opportunities at hm
    rw [List.mem_filterMap] at hm
    obtain ⟨s, _, hms⟩ := hm
    obtain ⟨hsym, krow, brow, h1, h2, _, _, _, _, _, h8, h9, h10⟩ := matchSymbol_some hms
    rw [← hsym] at h1 h2
    refine ⟨?_, ?_, ?_, krow, brow, h1, h2, ?_, ?_⟩
    · rw [h8, ratAbs_eq_abs]
    · intro hlt
      rw [h9, if_pos hlt]
    · intro hlt
      rw [h9, if_neg (by exact not_lt.mpr (le_of_lt hlt))]
    · intro t ht hne
      rw [h10, ht]
      simp [pyOr, hne]
    · intro ht
      rw [h10, ht]
      rfl
  · exact demo_opps_eval

/-- Concrete instantiation of C6: on the demo snapshot, the emitted
opportunity has gross spread 0.0004 and shorts KuCoin (the higher rate). -/
theorem C6_spread_direction_and_funding_time_witness :
    demoOpp.gross_spread = |demoOpp.kucoin_rate - demoOpp.bybit_rate| ∧
    demoOpp.recommended_action = "KuCoin: Short / Bybit: Long" := by
  have h := C6_spread_direction_and_funding_time demoData
  have hm : demoOpp ∈ get_arbitrage_opportunities demoData := by
    rw [h.2]
    exact List.mem_singleton.mpr rfl
  obtain ⟨hg, ha, _, _⟩ := h.1 demoOpp hm
  refine ⟨hg, ha ?_⟩
  show (2:ℚ)/10000 < 6/10000
  norm_num

/- ## Claims C1-C4, C10 (Trade Executor) -/

/-- C4: when the KuCoin (leg A) placement fails, execute_dual_trade aborts:
no Bybit placement, no close attempt, no venue close order, no Trade Record,
and a failure response with null status whose message carries the venue
error after the "KuCoin order failed: " prefix. -/
theorem C4_leg_a_failure_aborts (env : ExecEnv) (symbol : String)
    (quantity : ℚ) (leverage : ℤ) (simulate_failure : Bool)
    (hpk : 0 < env.kucoin_price.getD 0) (hpb : 0 < env.bybit_price.getD 0)
    (hva : (_validate_amount_limit quantity env.kucoin_price env.bybit_price).1 = true)
    (hvb : (_validate_balance env.kucoin_balance env.bybit_balance quantity leverage
      env.kucoin_price env.bybit_price).1.1 = true)
    (hA : env.kucoin_order.success = false) :
    (execute_dual_trade env symbol quantity leverage simulate_failure).1.success = false ∧
    (execute_dual_trade env symbol quantity leverage simulate_failure).1.status = none ∧
    (execute_dual_trade env symbol quantity leverage simulate_failure).1.message =
      "KuCoin order failed: " ++ pyStrOpt env.kucoin_order.error ∧
    (execute_dual_trade env symbol quantity leverage simulate_failure).2.filter Ev.isBybitPlace = [] ∧
    (execute_dual_trade env symbol quantity leverage simulate_failure).2.filter Ev.isCloseAttempt = [] ∧
    (execute_dual_trade env symbol quantity leverage simulate_failure).2.filter Ev.isVenueClose = [] ∧
    (execute_dual_trade env symbol quantity leverage simulate_failure).2.filter Ev.isInsert = [] := by
  have hguard : ¬(env.kucoin_price.getD 0 ≤ 0 ∨ env.bybit_price.getD 0 ≤ 0) := by
    rw [not_or]
    exact ⟨not_le.mpr hpk, not_le.mpr hpb⟩
  have hbe := validate_balance_events env.kucoin_balance env.bybit_balance quantity leverage
    env.kucoin_price env.bybit_price hguard
  have hA' : ¬(env.kucoin_order.success = true) := by
    rw [hA]
    simp
  rcases directionPair_cases (kucoinRateOf env.snapshot symbol) (bybitRateOf env.snapshot symbol)
    with hd | hd
  · have heq : execute_dual_trade env symbol quantity leverage simulate_failure =
        ({ success := false, status := none,
           message := "KuCoin order failed: " ++ pyStrOpt env.kucoin_order.error,
           logs := ["KuCoin place order FAILED: " ++ env.kucoin_order.error.getD "Unknown"] },
         ([Ev.fetchMarketData, Ev.fetchMarkPrices symbol] ++
          [Ev.fetchBalance Venue.kucoin, Ev.fetchBalance Venue.bybit]) ++
          [Ev.placeOrder Venue.kucoin symbol "sell" quantity leverage]) := by
      simp [execute_dual_trade, _get_directions_and_prices, hd, hbe, hva, hvb, hA, hguard]
    rw [heq]
    exact ⟨rfl, rfl, rfl, rfl, rfl, rfl, rfl⟩
  · have heq : execute_dual_trade env symbol quantity leverage simulate_failure =
        ({ success := false, status := none,
           message := "KuCoin order failed: " ++ pyStrOpt env.kucoin_order.error,
           logs := ["KuCoin place order FAILED: " ++ env.kucoin_order.error.getD "Unknown"] },
         ([Ev.fetchMarketData, Ev.fetchMarkPrices symbol] ++
          [Ev.fetchBalance Venue.kucoin, Ev.fetchBalance Venue.bybit]) ++
          [Ev.placeOrder Venue.kucoin symbol "buy" quantity leverage]) := by
      simp [execute_dual_trade, _get_directions_and_prices, hd, hbe, hva, hvb, hA, hguard]
    rw [heq]
    exact ⟨rfl, rfl, rfl, rfl, rfl, rfl, rfl⟩


/-- Shorthand for the Trade Record dictionary passed to database.insert_trade. -/
def mkRecord (symbol : String) (quantity : ℚ) (leverage : ℤ) (kd bd : String)
    (kp bp : Option ℚ) (st : String) : TradeRecord :=
  { token_group_id := symbol
    quantity := quantity
    leverage := leverage
    kucoin_direction := kd
    bybit_direction := bd
    kucoin_entry_price := kp
    bybit_entry_price := bp
    status := st }

/-- C1: with simulate_failure set and a successful KuCoin leg, the Bybit
place-order operation is never called, close_position is invoked exactly once
with the opened side and quantity, any venue-side close order it sends is the
reduce-only opposite-side order of the same quantity, exactly one Trade
Record is appended with status FAILED_ROLLBACK (whatever the close outcome),
and the call returns success=false with status FAILED_ROLLBACK. -/
theorem C1_simulated_failure_rollback (env : ExecEnv) (symbol : String)
    (quantity : ℚ) (leverage : ℤ)
    (hpk : 0 < env.kucoin_price.getD 0) (hpb : 0 < env.bybit_price.getD 0)
    (hva : (_validate_amount_limit quantity env.kucoin_price env.bybit_price).1 = true)
    (hvb : (_validate_balance env.kucoin_balance env.bybit_balance quantity leverage
      env.kucoin_price env.bybit_price).1.1 = true)
    (hA : env.kucoin_order.success = true) :
    (execute_dual_trade env symbol quantity leverage true).1.success = false ∧
    (execute_dual_trade env symbol quantity leverage true).1.status = some "FAILED_ROLLBACK" ∧
    (execute_dual_trade env symbol quantity leverage true).2.filter Ev.isBybitPlace = [] ∧
    (∃ os,
      (execute_dual_trade env symbol quantity leverage true).2.filter Ev.isKucoinPlace =
        [Ev.placeOrder Venue.kucoin symbol os quantity leverage] ∧
      (execute_dual_trade env symbol quantity leverage true).2.filter Ev.isCloseAttempt =
        [Ev.closeAttempt Venue.kucoin symbol os quantity] ∧
      ((execute_dual_trade env symbol quantity leverage true).2.filter Ev.isVenueClose = [] ∨
       (execute_dual_trade env symbol quantity leverage true).2.filter Ev.isVenueClose =
        [Ev.venueCloseOrder Venue.kucoin symbol (pyCloseSide os) quantity true]) ∧
      ((os = "buy" ∧ pyCloseSide os = "sell") ∨ (os = "sell" ∧ pyCloseSide os = "buy"))) ∧
    (∃ r, (execute_dual_trade env symbol quantity leverage true).2.filter Ev.isInsert =
        [Ev.insertTrade r] ∧ r.status = "FAILED_ROLLBACK") := by
  have hguard : ¬(env.kucoin_price.getD 0 ≤ 0 ∨ env.bybit_price.getD 0 ≤ 0) := by
    rw [not_or]
    exact ⟨not_le.mpr hpk, not_le.mpr hpb⟩
  have hbe := validate_balance_events env.kucoin_balance env.bybit_balance quantity leverage
    env.kucoin_price env.bybit_price hguard
  rcases directionPair_cases (kucoinRateOf env.snapshot symbol) (bybitRateOf env.snapshot symbol)
    with hd | hd
  · have hsucc : (execute_dual_trade env symbol quantity leverage true).1.success = false := by
      simp [execute_dual_trade, _get_directions_and_prices, hd, hbe, hva, hvb, hA, hguard]
    have hstat : (execute_dual_trade env symbol quantity leverage true).1.status =
        some "FAILED_ROLLBACK" := by
      simp [execute_dual_trade, _get_directions_and_prices, hd, hbe, hva, hvb, hA, hguard]
    have htrace : (execute_dual_trade env symbol quantity leverage true).2 =
        Ev.fetchMarketData :: Ev.fetchMarkPrices symbol :: Ev.fetchBalance Venue.kucoin ::
        Ev.fetchBalance Venue.bybit ::
        Ev.placeOrder Venue.kucoin symbol "sell" quantity leverage ::
        ((close_position env.closeEnv Venue.kucoin symbol "sell" quantity).2 ++
         [Ev.insertTrade (mkRecord symbol quantity leverage "Short" "Long"
            env.kucoin_price env.bybit_price "FAILED_ROLLBACK")]) := by
      simp [execute_dual_trade, _get_directions_and_prices, mkRecord, hd, hbe, hva, hvb, hA,
        hguard]
    refine ⟨hsucc, hstat, ?_,
      ⟨"sell", ?_, ?_, ?_, Or.inr ⟨rfl, by decide⟩⟩,
      ⟨mkRecord symbol quantity leverage "Short" "Long"
         env.kucoin_price env.bybit_price "FAILED_ROLLBACK", ?_, rfl⟩⟩
    · rw [htrace]
      rcases close_position_events env.closeEnv Venue.kucoin symbol "sell" quantity with hc | hc <;>
        rw [hc] <;> rfl
    · rw [htrace]
      rcases close_position_events env.closeEnv Venue.kucoin symbol "sell" quantity with hc | hc <;>
        rw [hc] <;> rfl
    · rw [htrace]
      rcases close_position_events env.closeEnv Venue.kucoin symbol "sell" quantity with hc | hc <;>
        rw [hc] <;> rfl
    · rw [htrace]
      rcases close_position_events env.closeEnv Venue.kucoin symbol "sell" quantity with hc | hc
      · rw [hc]
        left
        rfl
      · rw [hc]
        right
        rfl
    · rw [htrace]
      rcases close_position_events env.closeEnv Venue.kucoin symbol "sell" quantity with hc | hc <;>
        rw [hc] <;> rfl
  · have hsucc : (execute_dual_trade env symbol quantity leverage true).1.success = false := by
      simp [execute_dual_trade, _get_directions_and_prices, hd, hbe, hva, hvb, hA, hguard]
    have hstat : (execute_dual_trade env symbol quantity leverage true).1.status =
        some "FAILED_ROLLBACK" := by
      simp [execute_dual_trade, _get_directions_and_prices, hd, hbe, hva, hvb, hA, hguard]
    have htrace : (execute_dual_trade env symbol quantity leverage true).2 =
        Ev.fetchMarketData :: Ev.fetchMarkPrices symbol :: Ev.fetchBalance Venue.kucoin ::
        Ev.fetchBalance Venue.bybit ::
        Ev.placeOrder Venue.kucoin symbol "buy" quantity leverage ::
        ((close_position env.closeEnv Venue.kucoin symbol "buy" quantity).2 ++
         [Ev.insertTrade (mkRecord symbol quantity leverage "Long" "Short"
            env.kucoin_price env.bybit_price "FAILED_ROLLBACK")]) := by
      simp [execute_dual_trade, _get_directions_and_prices, mkRecord, hd, hbe, hva, hvb, hA,
        hguard]
    refine ⟨hsucc, hstat, ?_,
      ⟨"buy", ?_, ?_, ?_, Or.inl ⟨rfl, by decide⟩⟩,
      ⟨mkRecord symbol quantity leverage "Long" "Short"
         env.kucoin_price env.bybit_price "FAILED_ROLLBACK", ?_, rfl⟩⟩
    · rw [htrace]
      rcases close_position_events env.closeEnv Venue.kucoin symbol "buy" quantity with hc | hc <;>
        rw [hc] <;> rfl
    · rw [htrace]
      rcases close_position_events env.closeEnv Venue.kucoin symbol "buy" quantity with hc | hc <;>
        rw [hc] <;> rfl
    · rw [htrace]
      rcases close_position_events env.closeEnv Venue.kucoin symbol "buy" quantity with hc | hc <;>
        rw [hc] <;> rfl
    · rw [htrace]
      rcases close_position_events env.closeEnv Venue.kucoin symbol "buy" quantity with hc | hc
      · rw [hc]
        left
        rfl
      · rw [hc]
        right
        rfl
    · rw [htrace]
      rcases close_position_events env.closeEnv Venue.kucoin symbol "buy" quantity with hc | hc <;>
        rw [hc] <;> rfl

/-- C2: when both legs succeed, execute_dual_trade returns success=true with
status OPEN, appends exactly one Trade Record with status OPEN, records the
directions resolved from the funding rates, and those directions short the
venue with the strictly higher funding rate and long the other. -/
theorem C2_both_legs_open (env : ExecEnv) (symbol : String)
    (quantity : ℚ) (leverage : ℤ)
    (hpk : 0 < env.kucoin_price.getD 0) (hpb : 0 < env.bybit_price.getD 0)
    (hva : (_validate_amount_limit quantity env.kucoin_price env.bybit_price).1 = true)
    (hvb : (_validate_balance env.kucoin_balance env.bybit_balance quantity leverage
      env.kucoin_price env.bybit_price).1.1 = true)
    (hA : env.kucoin_order.success = true)
    (hB : env.bybit_order.success = true) :
    (execute_dual_trade env symbol quantity leverage false).1.success = true ∧
    (execute_dual_trade env symbol quantity leverage false).1.status = some "OPEN" ∧
    (∃ r, (execute_dual_trade env symbol quantity leverage false).2.filter Ev.isInsert =
        [Ev.insertTrade r] ∧
      r.status = "OPEN" ∧
      r.kucoin_direction =
        (directionPair (kucoinRateOf env.snapshot symbol) (bybitRateOf env.snapshot symbol)).1 ∧
      r.bybit_direction =
        (directionPair (kucoinRateOf env.snapshot symbol) (bybitRateOf env.snapshot symbol)).2 ∧
      (∀ a b, kucoinRateOf env.snapshot symbol = some a →
        bybitRateOf env.snapshot symbol = some b →
        (b < a → r.kucoin_direction = "Short" ∧ r.bybit_direction = "Long") ∧
        (a < b → r.kucoin_direction = "Long" ∧ r.bybit_direction = "Short"))) := by
  have hguard : ¬(env.kucoin_price.getD 0 ≤ 0 ∨ env.bybit_price.getD 0 ≤ 0) := by
    rw [not_or]
    exact ⟨not_le.mpr hpk, not_le.mpr hpb⟩
  have hbe := validate_balance_events env.kucoin_balance env.bybit_balance quantity leverage
    env.kucoin_price env.bybit_price hguard
  rcases directionPair_cases (kucoinRateOf env.snapshot symbol) (bybitRateOf env.snapshot symbol)
    with hd | hd
  · have hsucc : (execute_dual_trade env symbol quantity leverage false).1.success = true := by
      simp [execute_dual_trade, _get_directions_and_prices, hd, hbe, hva, hvb, hA, hB, hguard]
    have hstat : (execute_dual_trade env symbol quantity leverage false).1.status =
        some "OPEN" := by
      simp [execute_dual_trade, _get_directions_and_prices, hd, hbe, hva, hvb, hA, hB, hguard]
    have htrace : (execute_dual_trade env symbol quantity leverage false).2 =
        Ev.fetchMarketData :: Ev.fetchMarkPrices symbol :: Ev.fetchBalance Venue.kucoin ::
        Ev.fetchBalance Venue.bybit ::
        Ev.placeOrder Venue.kucoin symbol "sell" quantity leverage ::
        Ev.placeOrder Venue.bybit symbol "buy" quantity leverage ::
        [Ev.insertTrade (mkRecord symbol quantity leverage "Short" "Long"
           env.kucoin_price env.bybit_price "OPEN")] := by
      simp [execute_dual_trade, _get_directions_and_prices, mkRecord, hd, hbe, hva, hvb, hA,
        hB, hguard]
    refine ⟨hsucc, hstat,
      ⟨mkRecord symbol quantity leverage "Short" "Long"
         env.kucoin_price env.bybit_price "OPEN", ?_, rfl, by rw [hd]; rfl, by rw [hd]; rfl, ?_⟩⟩
    · rw [htrace]
      rfl
    · intro a b ha hb
      constructor
      · intro _
        exact ⟨rfl, rfl⟩
      · intro hab
        exfalso
        rw [ha, hb] at hd
        simp [directionPair, not_lt.mpr (le_of_lt hab)] at hd
  · have hsucc : (execute_dual_trade env symbol quantity leverage false).1.success = true := by
      simp [execute_dual_trade, _get_directions_and_prices, hd, hbe, hva, hvb, hA, hB, hguard]
    have hstat : (execute_dual_trade env symbol quantity leverage false).1.status =
        some "OPEN" := by
      simp [execute_dual_trade, _get_directions_and_prices, hd, hbe, hva, hvb, hA, hB, hguard]
    have htrace : (execute_dual_trade env symbol quantity leverage false).2 =
        Ev.fetchMarketData :: Ev.fetchMarkPrices symbol :: Ev.fetchBalance Venue.kucoin ::
        Ev.fetchBalance Venue.bybit ::
        Ev.placeOrder Venue.kucoin symbol "buy" quantity leverage ::
        Ev.placeOrder Venue.bybit symbol "sell" quantity leverage ::
        [Ev.insertTrade (mkRecord symbol quantity leverage "Long" "Short"
           env.kucoin_price env.bybit_price "OPEN")] := by
      simp [execute_dual_trade, _get_directions_and_prices, mkRecord, hd, hbe, hva, hvb, hA,
        hB, hguard]
    refine ⟨hsucc, hstat,
      ⟨mkRecord symbol quantity leverage "Long" "Short"
         env.kucoin_price env.bybit_price "OPEN", ?_, rfl, by rw [hd]; rfl, by rw [hd]; rfl, ?_⟩⟩
    · rw [htrace]
      rfl
    · intro a b ha hb
      constructor
      · intro hba
        exfalso
        rw [ha, hb] at hd
        simp [directionPair, hba] at hd
      · intro _
        exact ⟨rfl, rfl⟩

lemma validate_amount_fails (q : ℚ) (kp bp : Option ℚ)
    (h : q ≤ 0 ∨ MAX_TOKENS < q ∨ MAX_NOTIONAL_USDT < q * max (kp.getD 0) (bp.getD 0)) :
    (_validate_amount_limit q kp bp).1 = false := by
  unfold _validate_amount_limit
  by_cases h0 : q ≤ 0
  · simp [h0]
  · rcases h with h | h | h
    · exact absurd h h0
    · simp [h0, h]
    · by_cases h5 : MAX_TOKENS < q
      · simp [h0, h5]
      · have hq : 0 < q := not_le.mp h0
        have hmp : 0 < max (kp.getD 0) (bp.getD 0) := by
          by_contra hc
          push_neg at hc
          have : q * max (kp.getD 0) (bp.getD 0) ≤ 0 :=
            mul_nonpos_of_nonneg_of_nonpos (le_of_lt hq) hc
          have : MAX_NOTIONAL_USDT < 0 := lt_of_lt_of_le h this
          norm_num [MAX_NOTIONAL_USDT] at this
        simp [h0, h5, hmp, h]

lemma validate_balance_fails_nonpos_leverage (kb bb : BalanceResult) (q : ℚ)
    (lev : ℤ) (kp bp : Option ℚ) (hlev : lev ≤ 0) :
    (_validate_balance kb bb q lev kp bp).1.1 = false := by
  unfold _validate_balance
  by_cases hg : kp.getD 0 ≤ 0 ∨ bp.getD 0 ≤ 0
  · simp [hg]
  · cases hke : kb.error <;> cases hbee : bb.error <;> simp [hg, hke, hbee, hlev]

/-- C3 (amended): a request with non-positive quantity or leverage, an
over-cap quantity, or an over-cap notional is rejected with success=false
and null status, no Trade Record is appended and no order or close call is
issued; the market-data read and mark-price venue calls (and, when the
rejection happens at the balance stage, the balance calls) do occur before
the rejection — see the counterexample for the original claim. -/
theorem C3_validation_rejection (env : ExecEnv) (symbol : String)
    (quantity : ℚ) (leverage : ℤ) (simulate_failure : Bool)
    (h : quantity ≤ 0 ∨ leverage ≤ 0 ∨ MAX_TOKENS < quantity ∨
      MAX_NOTIONAL_USDT < quantity * max (env.kucoin_price.getD 0) (env.bybit_price.getD 0)) :
    (execute_dual_trade env symbol quantity leverage simulate_failure).1.success = false ∧
    (execute_dual_trade env symbol quantity leverage simulate_failure).1.status = none ∧
    (execute_dual_trade env symbol quantity leverage simulate_failure).2.filter Ev.isPlace = [] ∧
    (execute_dual_trade env symbol quantity leverage simulate_failure).2.filter
      Ev.isCloseAttempt = [] ∧
    (execute_dual_trade env symbol quantity leverage simulate_failure).2.filter
      Ev.isVenueClose = [] ∧
    (execute_dual_trade env symbol quantity leverage simulate_failure).2.filter
      Ev.isInsert = [] := by
  by_cases hg : env.kucoin_price.getD 0 ≤ 0 ∨ env.bybit_price.getD 0 ≤ 0
  · have heq : execute_dual_trade env symbol quantity leverage simulate_failure =
        ({ success := false, status := none,
           message := "Could not get mark price for symbol", logs := [] },
         [Ev.fetchMarketData, Ev.fetchMarkPrices symbol]) := by
      simp [execute_dual_trade, _get_directions_and_prices, hg]
    rw [heq]
    exact ⟨rfl, rfl, rfl, rfl, rfl, rfl⟩
  · have hva2 : quantity ≤ 0 ∨ MAX_TOKENS < quantity ∨
        MAX_NOTIONAL_USDT < quantity * max (env.kucoin_price.getD 0) (env.bybit_price.getD 0) →
        (_validate_amount_limit quantity env.kucoin_price env.bybit_price).1 = false :=
      fun hx => validate_amount_fails quantity env.kucoin_price env.bybit_price hx
    by_cases hva : (_validate_amount_limit quantity env.kucoin_price env.bybit_price).1 = true
    · have hlev : leverage ≤ 0 := by
        rcases h with h | h | h | h
        · rw [hva2 (Or.inl h)] at hva
          exact absurd hva (by simp)
        · exact h
        · rw [hva2 (Or.inr (Or.inl h))] at hva
          exact absurd hva (by simp)
        · rw [hva2 (Or.inr (Or.inr h))] at hva
          exact absurd hva (by simp)
      have hvb := validate_balance_fails_nonpos_leverage env.kucoin_balance env.bybit_balance
        quantity leverage env.kucoin_price env.bybit_price hlev
      have hbe := validate_balance_events env.kucoin_balance env.bybit_balance quantity leverage
        env.kucoin_price env.bybit_price hg
      have heq : execute_dual_trade env symbol quantity leverage simulate_failure =
          ({ success := false, status := none,
             message := (_validate_balance env.kucoin_balance env.bybit_balance quantity
               leverage env.kucoin_price env.bybit_price).1.2,
             logs := [(_validate_balance env.kucoin_balance env.bybit_balance quantity
               leverage env.kucoin_price env.bybit_price).1.2] },
           [Ev.fetchMarketData, Ev.fetchMarkPrices symbol, Ev.fetchBalance Venue.kucoin,
            Ev.fetchBalance Venue.bybit]) := by
        simp [execute_dual_trade, _get_directions_and_prices, hg, hva, hvb, hbe]
      rw [heq]
      exact ⟨rfl, rfl, rfl, rfl, rfl, rfl⟩
    · simp only [Bool.not_eq_true] at hva
      have heq : execute_dual_trade env symbol quantity leverage simulate_failure =
          ({ success := false, status := none,
             message := (_validate_amount_limit quantity env.kucoin_price env.bybit_price).2,
             logs := [(_validate_amount_limit quantity env.kucoin_price env.bybit_price).2] },
           [Ev.fetchMarketData, Ev.fetchMarkPrices symbol]) := by
        simp [execute_dual_trade, _get_directions_and_prices, hg, hva]
      rw [heq]
      exact ⟨rfl, rfl, rfl, rfl, rfl, rfl⟩

/-- Execution environment for the C3 counterexample: both mark prices are 1,
balances and orders are healthy, and the snapshot is empty. -/
def envC3 : ExecEnv :=
  { snapshot :=
      { kucoin := { symbols_count := 0, symbols := [], error := none }
        bybit := { symbols_count := 0, symbols := [], error := none } }
    kucoin_price := some 1
    bybit_price := some 1
    kucoin_balance :=
      { total_wallet_balance := 100, available_balance := 100, unrealized_pnl := 0, error := none }
    bybit_balance :=
      { total_wallet_balance := 100, available_balance := 100, unrealized_pnl := 0, error := none }
    kucoin_order := { success := true, error := none, order_id := some "k1" }
    bybit_order := { success := true, error := none, order_id := some "b1" }
    closeEnv := { hasApiKey := true, symbolFound := true, validKucoinId := true,
                  orderOutcome := none } }

/-- Counterexample to C3 as stated: a quantity-0 request is rejected with
success=false, yet the mark-price fetch (a venue call issued by
_get_directions_and_prices before validation) has already reached the
venues, so the request is not rejected before any venue call. -/
theorem C3_counterexample_venue_calls :
    (execute_dual_trade envC3 "BTC/USDT" 0 1 false).1.success = false ∧
    (execute_dual_trade envC3 "BTC/USDT" 0 1 false).1.status = none ∧
    Ev.fetchMarkPrices "BTC/USDT" ∈ (execute_dual_trade envC3 "BTC/USDT" 0 1 false).2 := by
  have heq : execute_dual_trade envC3 "BTC/USDT" 0 1 false =
      ({ success := false, status := none,
         message := "Token quantity must be positive",
         logs := ["Token quantity must be positive"] },
       [Ev.fetchMarketData, Ev.fetchMarkPrices "BTC/USDT"]) := by
    norm_num [execute_dual_trade, _get_directions_and_prices, _validate_amount_limit, envC3]
  rw [heq]
  refine ⟨rfl, rfl, ?_⟩
  simp

/-- C10: with a missing funding rate on either venue, or exactly equal rates,
the executor does not reject the request on that ground: the resolved
directions default to KuCoin Long and Bybit Short, and when prices and
validations pass the KuCoin buy order is placed. -/
theorem C10_default_direction_on_missing_or_equal_rates (env : ExecEnv) (symbol : String)
    (quantity : ℚ) (leverage : ℤ) (simulate_failure : Bool)
    (h : kucoinRateOf env.snapshot symbol = none ∨ bybitRateOf env.snapshot symbol = none ∨
      kucoinRateOf env.snapshot symbol = bybitRateOf env.snapshot symbol) :
    directionPair (kucoinRateOf env.snapshot symbol) (bybitRateOf env.snapshot symbol) =
      ("Long", "Short") ∧
    (0 < env.kucoin_price.getD 0 → 0 < env.bybit_price.getD 0 →
      (_validate_amount_limit quantity env.kucoin_price env.bybit_price).1 = true →
      (_validate_balance env.kucoin_balance env.bybit_balance quantity leverage
        env.kucoin_price env.bybit_price).1.1 = true →
      Ev.placeOrder Venue.kucoin symbol "buy" quantity leverage ∈
        (execute_dual_trade env symbol quantity leverage simulate_failure).2) := by
  have hdp : directionPair (kucoinRateOf env.snapshot symbol)
      (bybitRateOf env.snapshot symbol) = ("Long", "Short") := by
    rcases h with h | h | h
    · cases hb : bybitRateOf env.snapshot symbol <;> simp [directionPair, h, hb]
    · cases hk : kucoinRateOf env.snapshot symbol <;> simp [directionPair, h, hk]
    · cases hk : kucoinRateOf env.snapshot symbol with
      | none =>
        rw [hk] at h
        simp [directionPair, hk, ← h]
      | some a =>
        rw [hk] at h
        simp [directionPair, hk, ← h, lt_irrefl]
  refine ⟨hdp, ?_⟩
  intro hpk hpb hva hvb
  have hguard : ¬(env.kucoin_price.getD 0 ≤ 0 ∨ env.bybit_price.getD 0 ≤ 0) := by
    rw [not_or]
    exact ⟨not_le.mpr hpk, not_le.mpr hpb⟩
  have hbe := validate_balance_events env.kucoin_balance env.bybit_balance quantity leverage
    env.kucoin_price env.bybit_price hguard
  cases simulate_failure with
  | false =>
    by_cases hA : env.kucoin_order.success = true
    · by_cases hB : env.bybit_order.success = true
      · simp [execute_dual_trade, _get_directions_and_prices, hdp, hbe, hva, hvb, hguard,
          hA, hB]
      · simp [execute_dual_trade, _get_directions_and_prices, hdp, hbe, hva, hvb, hguard,
          hA, hB]
    · simp [execute_dual_trade, _get_directions_and_prices, hdp, hbe, hva, hvb, hguard, hA]
  | true =>
    by_cases hA : env.kucoin_order.success = true
    · simp [execute_dual_trade, _get_directions_and_prices, hdp, hbe, hva, hvb, hguard, hA]
    · simp [execute_dual_trade, _get_directions_and_prices, hdp, hbe, hva, hvb, hguard, hA]

/-- Execution environment with the KuCoin leg failing, for the C4 witness. -/
def envFailA : ExecEnv :=
  { envC3 with kucoin_order := { success := false, error := some "boom", order_id := none } }

/-- Market data with exactly equal funding rates on both venues. -/
def demoDataEq : Summary :=
  { kucoin :=
      { symbols_count := 1,
        symbols := [{ symbol := "BTC/USDT", funding_rate := some (1/1000),
                      funding_interval := some 8, next_funding_time := none }],
        error := none }
    bybit :=
      { symbols_count := 1,
        symbols := [{ symbol := "BTC/USDT", funding_rate := some (1/1000),
                      funding_interval := some 8, next_funding_time := none }],
        error := none } }

/-- Execution environment over the equal-rates snapshot, for the C10 witness. -/
def envC10 : ExecEnv := { envC3 with snapshot := demoDataEq }

/-- Concrete instantiation of C1: a healthy 1-token 1x request with
simulate_failure ends FAILED_ROLLBACK and unsuccessful. -/
theorem C1_simulated_failure_rollback_witness :
    (execute_dual_trade envC3 "BTC/USDT" 1 1 true).1.success = false ∧
    (execute_dual_trade envC3 "BTC/USDT" 1 1 true).1.status = some "FAILED_ROLLBACK" := by
  have h := C1_simulated_failure_rollback envC3 "BTC/USDT" 1 1
    (by norm_num [envC3]) (by norm_num [envC3])
    (by norm_num [_validate_amount_limit, envC3, MAX_TOKENS, MAX_NOTIONAL_USDT])
    (by norm_num [_validate_balance, envC3])
    rfl
  exact ⟨h.1, h.2.1⟩

/-- Concrete instantiation of C2: a healthy 1-token 1x request opens both
legs and ends OPEN and successful. -/
theorem C2_both_legs_open_witness :
    (execute_dual_trade envC3 "BTC/USDT" 1 1 false).1.success = true ∧
    (execute_dual_trade envC3 "BTC/USDT" 1 1 false).1.status = some "OPEN" := by
  have h := C2_both_legs_open envC3 "BTC/USDT" 1 1
    (by norm_num [envC3]) (by norm_num [envC3])
    (by norm_num [_validate_amount_limit, envC3, MAX_TOKENS, MAX_NOTIONAL_USDT])
    (by norm_num [_validate_balance, envC3])
    rfl rfl
  exact ⟨h.1, h.2.1⟩

/-- Concrete instantiation of the amended C3: a quantity-0 request is
rejected with no status and no Trade Record. -/
theorem C3_validation_rejection_witness :
    (execute_dual_trade envC3 "BTC/USDT" 0 1 false).1.success = false ∧
    (execute_dual_trade envC3 "BTC/USDT" 0 1 false).1.status = none ∧
    (execute_dual_trade envC3 "BTC/USDT" 0 1 false).2.filter Ev.isInsert = [] := by
  have h := C3_validation_rejection envC3 "BTC/USDT" 0 1 false (Or.inl (by norm_num))
  exact ⟨h.1, h.2.1, h.2.2.2.2.2⟩

/-- Concrete instantiation of C4: a failing KuCoin leg aborts the trade with
the venue error surfaced in the message. -/
theorem C4_leg_a_failure_aborts_witness :
    (execute_dual_trade envFailA "BTC/USDT" 1 1 false).1.success = false ∧
    (execute_dual_trade envFailA "BTC/USDT" 1 1 false).1.status = none ∧
    (execute_dual_trade envFailA "BTC/USDT" 1 1 false).1.message =
      "KuCoin order failed: " ++ pyStrOpt envFailA.kucoin_order.error ∧
    (execute_dual_trade envFailA "BTC/USDT" 1 1 false).2.filter Ev.isInsert = [] := by
  have h := C4_leg_a_failure_aborts envFailA "BTC/USDT" 1 1 false
    (by norm_num [envFailA, envC3]) (by norm_num [envFailA, envC3])
    (by norm_num [_validate_amount_limit, envFailA, envC3, MAX_TOKENS, MAX_NOTIONAL_USDT])
    (by norm_num [_validate_balance, envFailA, envC3])
    rfl
  exact ⟨h.1, h.2.1, h.2.2.1, h.2.2.2.2.2.2⟩

/-- Concrete instantiation of C10: equal funding rates on both venues still
produce the default KuCoin-Long direction and the trade proceeds to the
KuCoin buy order. -/
theorem C10_default_direction_witness :
    directionPair (kucoinRateOf envC10.snapshot "BTC/USDT")
      (bybitRateOf envC10.snapshot "BTC/USDT") = ("Long", "Short") ∧
    Ev.placeOrder Venue.kucoin "BTC/USDT" "buy" 1 1 ∈
      (execute_dual_trade envC10 "BTC/USDT" 1 1 false).2 := by
  have h := C10_default_direction_on_missing_or_equal_rates envC10 "BTC/USDT" 1 1 false
    (Or.inr (Or.inr (by simp [kucoinRateOf, bybitRateOf, dictBy, envC10, demoDataEq])))
  exact ⟨h.1, h.2 (by norm_num [envC10, envC3]) (by norm_num [envC10, envC3])
    (by norm_num [_validate_amount_limit, envC10, envC3, MAX_TOKENS, MAX_NOTIONAL_USDT])
    (by norm_num [_validate_balance, envC10, envC3])⟩
